import Mathlib

/-!
Verification of the task-automation agent (FastAPI service).

The development shallowly embeds the program's Python code:

* `src/utils/validators.py` — `is_valid_task` (the Task Validator);
* `src/utils/security.py` — `validate_path` (the Path Guard);
* `src/main.py` — the `/run` and `/read` endpoints (`run_task`, `read_file`);
* `src/handlers/task_handlers.py` — `TaskHandler.handle_task`,
  `TaskHandler._classify_task`, the operation registry, and the
  weekday-counting and contact-sorting handlers.

Python strings are modelled by Lean `String`s, with the string operations
the code uses (`lower`, `strip`, `startswith`, substring `in`, `splitlines`)
re-implemented structurally over the underlying character list so that the
kernel can evaluate them on concrete inputs.  Filesystem and network calls
are modelled by explicit interfaces (`FileSystem`, `RunEnv`): each field is
one kind of system call the code makes, returning `Except` to model Python
exceptions.
-/

namespace Agent

/-! ## Python string primitives -/

/-- Model of `pre` being a prefix of `l` (character lists). -/
def listStartsWith : List Char → List Char → Bool
  | [], _ => true
  | _ :: _, [] => false
  | p :: ps, c :: cs => p == c && listStartsWith ps cs

/-- Model of Python `pat in hay` (substring containment) on character lists. -/
def listContains : List Char → List Char → Bool
  | [], pat => pat.isEmpty
  | hay@(_ :: t), pat => listStartsWith pat hay || listContains t pat

/-- Model of Python `s.startswith(pre)`. -/
def pyStartsWith (s pre : String) : Bool :=
  listStartsWith pre.data s.data

/-- Model of Python `pat in s` (substring containment). -/
def strContains (s pat : String) : Bool :=
  listContains s.data pat.data

/-- Model of Python `s.lower()` (ASCII case folding, which covers every
character the deny-list tokens use). -/
def pyLower (s : String) : String :=
  ⟨s.data.map Char.toLower⟩

/-- The characters Python `str.strip()` removes by default
(space, tab, newline, carriage return, vertical tab, form feed). -/
def isPySpace (c : Char) : Bool :=
  c == ' ' || c == '\t' || c == '\n' || c == '\r' || c.toNat == 11 || c.toNat == 12

/-- Model of Python `s.strip()`. -/
def pyStrip (s : String) : String :=
  ⟨((s.data.dropWhile isPySpace).reverse.dropWhile isPySpace).reverse⟩

/-! ## Task Validator (`src/utils/validators.py`, `is_valid_task`) -/

/-- The deny-list of `is_valid_task` (`dangerous_ops` in the source). -/
def dangerous_ops : List String := ["rm ", "remove", "delete", "chmod", "chown"]

/-- Embedding of `is_valid_task(task)`:
`if not task or len(task.strip()) < 5: return False` then
`return not any(op in task.lower() for op in dangerous_ops)`. -/
def is_valid_task (task : String) : Bool :=
  if task.data.isEmpty || decide ((pyStrip task).length < 5) then false
  else !(dangerous_ops.any fun op => strContains (pyLower task) op)

/-! ## Path Guard (`src/utils/security.py`, `validate_path`)

The filesystem is an explicit interface: each field models one `pathlib`
call the code makes, returning `Except String` to model a raised exception.
`resolve` models `Path(p).resolve()` (absolute, symlink-resolved form),
`is_file` models `Path.is_file()`, `path_exists` models `Path.exists()`,
and `read_text` models `Path.read_text()`. -/

structure FileSystem where
  resolve : String → Except String String
  is_file : String → Except String Bool
  path_exists : String → Except String Bool
  read_text : String → Except String String

/-- Embedding of `validate_path(path)`: resolve the path and the fixed root
`/data`, require `str(file_path).startswith(str(data_dir))`, then require
`file_path.is_file()`; any exception yields `False`. -/
def validate_path (fs : FileSystem) (path : String) : Bool :=
  match fs.resolve path with
  | .error _ => false
  | .ok file_path =>
    match fs.resolve "/data" with
    | .error _ => false
    | .ok data_dir =>
      if !(pyStartsWith file_path data_dir) then false
      else
        match fs.is_file file_path with
        | .error _ => false
        | .ok b => b

/-! ## The `/read` endpoint (`src/main.py`, `read_file`)

The response is modelled as (HTTP status, body).  A raised `HTTPException`
is re-raised unchanged by the `except` block; any other exception becomes a
500 response. -/

/-- Embedding of the `/read` endpoint: 400 when the Path Guard rejects,
404 when `Path(path).exists()` is false, otherwise the file contents with
status 200; an unexpected exception becomes a 500. -/
def read_file (fs : FileSystem) (path : String) : Nat × String :=
  if !(validate_path fs path) then
    (400, "Invalid path: Must be within /data directory")
  else
    match fs.path_exists path with
    | .error e => (500, "Internal server error: " ++ e)
    | .ok false => (404, "File not found: " ++ path)
    | .ok true =>
      match fs.read_text path with
      | .ok content => (200, content)
      | .error e => (500, "Internal server error: " ++ e)

/-! ## Spec-side notions used to state the claims -/

/-- Spec notion of descendant-of-root containment: the path is the root
itself or lies strictly under `root/`.  (This is the containment the spec
says the Path Guard is meant to approximate with its string-prefix check.) -/
def isDescendantOf (p root : String) : Bool :=
  p == root || pyStartsWith p (root ++ "/")

/-- A concrete filesystem state holding one regular file `/data2/x.txt`
under the sibling directory `/data2` of the allowed root `/data`.  Paths
are already canonical, so `resolve` is the identity. -/
def fsSibling : FileSystem where
  resolve := fun p => .ok p
  is_file := fun p => .ok (p == "/data2/x.txt")
  path_exists := fun p => .ok (p == "/data2/x.txt")
  read_text := fun p => if p == "/data2/x.txt" then .ok "sibling data" else .error "No such file"

/-- A concrete filesystem state for exercising every `/read` branch: the
regular file `/data/x.txt` holds `"hello"`; `/data/ghost.txt` passes the
guard's `is_file` check but is reported absent by the endpoint's separate
`exists()` call (the two are distinct system calls in the code). -/
def fsData : FileSystem where
  resolve := fun p => .ok p
  is_file := fun p => .ok (p == "/data/x.txt" || p == "/data/ghost.txt")
  path_exists := fun p => .ok (p == "/data/x.txt")
  read_text := fun p => if p == "/data/x.txt" then .ok "hello" else .error "No such file"

/-! ## JSON values and Python exceptions

`JValue` models the values `json.loads` can produce.  `PyExc` models a
raised Python exception as the fault handler in `run_task` sees it: an
`HTTPException` carries its status code in `http`, any other exception has
`http = none`; `msg` is `str(e)`. -/

inductive JValue where
  | null : JValue
  | bool : Bool → JValue
  | num : Int → JValue
  | str : String → JValue
  | arr : List JValue → JValue
  | obj : List (String × JValue) → JValue

structure PyExc where
  http : Option Nat
  msg : String
deriving DecidableEq

/-- First field of a JSON object with the given key (`json.loads` objects
have unique keys, the last duplicate winning, so the object is modelled as
its final field map). -/
def lookupField : List (String × JValue) → String → Option JValue
  | [], _ => none
  | (k, v) :: rest, key => if k == key then some v else lookupField rest key

/-- The field of a JSON value at a string key, when the value is an object
holding that key. -/
def getField (v : JValue) (key : String) : Option JValue :=
  match v with
  | .obj fields => lookupField fields key
  | _ => none

/-- Model of Python `value[key]` subscription with a string key: a `KeyError`
when the key is absent from a dict, a `TypeError` when the value is not a
dict (Python quotes the key in the `KeyError` message). -/
def pyGetItem (v : JValue) (key : String) : Except PyExc JValue :=
  match v with
  | .obj fields =>
    match lookupField fields key with
    | some x => .ok x
    | none => .error ⟨none, "KeyError: " ++ key⟩
  | _ => .error ⟨none, "TypeError: value is not subscriptable with key " ++ key⟩

/-! ## The `/run` pipeline (`src/main.py` `run_task`,
`src/handlers/task_handlers.py` `TaskHandler`)

`RunEnv` is the interface to everything outside the repository's own code:
`get_completion` models `LLMClient.get_completion` (the LLM Gateway call),
`parseJson` models `json.loads` on the Gateway's text response, and
`run_handler` models invoking one of the defined handler methods (named by
its method name) on the extracted parameters. -/

structure RunEnv where
  get_completion : String → Except PyExc String
  parseJson : String → Except PyExc JValue
  run_handler : String → JValue → Except PyExc JValue

/-- The classification prompt `_classify_task` builds around the task text
(whitespace condensed; no claim depends on the exact prompt wording). -/
def classify_prompt (task : String) : String :=
  "Classify the following task and extract relevant parameters: " ++ task ++
    " Return a JSON with task_type and parameters."

/-- Embedding of `TaskHandler._classify_task`: one Gateway completion call,
then `json.loads` on its text response, with no field checking. -/
def classify_task (env : RunEnv) (task : String) : Except PyExc JValue :=
  (env.get_completion (classify_prompt task)).bind env.parseJson

/-- The classification phase of `handle_task` (lines 20–27): call
`_classify_task`, then read `classification['task_type']` and
`classification['parameters']`. -/
def classification_step (env : RunEnv) (task : String) : Except PyExc (JValue × JValue) :=
  (classify_task env task).bind fun classification =>
    (pyGetItem classification "task_type").bind fun task_type =>
      (pyGetItem classification "parameters").map fun params => (task_type, params)

/-- The operation registry: the key → handler-method association written in
the `handlers` dict literal of `handle_task`, in source order. -/
def registry : List (String × String) :=
  [("install_uv", "_handle_uv_installation"),
   ("format_markdown", "_handle_markdown_formatting"),
   ("count_weekdays", "_handle_weekday_counting"),
   ("sort_contacts", "_handle_contact_sorting"),
   ("recent_logs", "_handle_recent_logs"),
   ("create_index", "_handle_markdown_index"),
   ("extract_email", "_handle_email_extraction"),
   ("extract_card", "_handle_card_extraction"),
   ("find_similar", "_handle_similar_comments"),
   ("query_database", "_handle_database_query"),
   ("fetch_api", "_handle_api_fetch"),
   ("git_operations", "_handle_git_ops"),
   ("scrape_website", "_handle_web_scraping"),
   ("process_image", "_handle_image_processing"),
   ("process_audio", "_handle_audio_processing"),
   ("convert_markdown", "_handle_markdown_conversion"),
   ("filter_csv", "_handle_csv_filtering")]

/-- The methods the `TaskHandler` class actually defines (the class body
stops after `_handle_database_query`; the seven later registry entries name
methods that do not exist). -/
def taskhandler_methods : List String :=
  ["handle_task", "_classify_task",
   "_handle_uv_installation", "_handle_markdown_formatting",
   "_handle_weekday_counting", "_handle_contact_sorting",
   "_handle_recent_logs", "_handle_markdown_index",
   "_handle_email_extraction", "_handle_card_extraction",
   "_handle_similar_comments", "_handle_database_query"]

/-- Evaluating the `handlers` dict literal: each value expression
`self._handle_...` is an attribute access, evaluated in source order, and
the first one naming a method the class does not define raises
`AttributeError` (Python's message quotes the class and attribute name). -/
def build_handlers : Except PyExc (List (String × String)) :=
  match registry.find? (fun e => !(taskhandler_methods.contains e.2)) with
  | some e => .error ⟨none, "AttributeError: TaskHandler object has no attribute " ++ e.2⟩
  | none => .ok registry

/-- Embedding of `TaskHandler.handle_task`: classify and extract the two
fields, evaluate the `handlers` dict, look the task type up and invoke the
handler; an unknown type raises `ValueError: Unknown task type`.  (A
non-string `task_type` also fails at the lookup; its exact message is
immaterial because `build_handlers` raises first on this class.) -/
def handle_task (env : RunEnv) (task : String) : Except PyExc JValue :=
  (classification_step env task).bind fun tp =>
    build_handlers.bind fun handlers =>
      match tp.1 with
      | .str s =>
        match handlers.lookup s with
        | some m => env.run_handler m tp.2
        | none => .error ⟨none, "Unknown task type: " ++ s⟩
      | _ => .error ⟨none, "Unknown task type"⟩

/-- Embedding of the `/run` endpoint `run_task`: reject empty or invalid
task text with 400; otherwise run `handle_task`, re-raise an
`HTTPException` with its own status, map any other exception to 400 when
its message contains `"Invalid"` or `"Failed to parse"` and to 500
otherwise; wrap a success as `{status: success, result}`. -/
def run_task (env : RunEnv) (task : String) : Nat × JValue :=
  if task.data.isEmpty || !(is_valid_task task) then
    (400, .str "Invalid task description")
  else
    match handle_task env task with
    | .ok result => (200, .obj [("status", .str "success"), ("result", result)])
    | .error e =>
      match e.http with
      | some code => (code, .str e.msg)
      | none =>
        if strContains e.msg "Invalid" || strContains e.msg "Failed to parse" then
          (400, .str e.msg)
        else
          (500, .str ("Internal server error: " ++ e.msg))

/-! ## Concrete environments for running the pipeline -/

/-- An environment whose Gateway classifies every task as the unregistered
type `make_coffee` with empty parameters, and whose handlers all succeed:
the input C4 is evaluated on. -/
def envUnknownType : RunEnv where
  get_completion := fun _ => .ok "llm response text"
  parseJson := fun _ => .ok (.obj [("task_type", .str "make_coffee"), ("parameters", .obj [])])
  run_handler := fun _ _ => .ok .null

/-- An environment whose Gateway returns a response parsing to a well-formed
classification of type `sort_contacts`. -/
def envSortContacts : RunEnv where
  get_completion := fun _ => .ok "llm response text"
  parseJson := fun _ => .ok (.obj [("task_type", .str "sort_contacts"), ("parameters", .obj [])])
  run_handler := fun _ _ => .ok (.obj [("status", .str "success")])

/-- An environment whose Gateway call fails with a message containing
`"Invalid"`, as `LLMClient.get_completion` does on a non-200 upstream
response whose body says so. -/
def envGatewayInvalid : RunEnv where
  get_completion := fun _ => .error ⟨none, "LLM request failed: Invalid bearer token"⟩
  parseJson := fun _ => .error ⟨none, "Expecting value: line 1 column 1"⟩
  run_handler := fun _ _ => .ok .null

/-! ## Weekday-count handler (`_handle_weekday_counting`, task A3)

The handler reads `/data/dates.txt`, counts the lines whose
`datetime.strptime(line.strip(), sYmd).weekday()` equals 2 (Wednesday,
with Monday = 0), and writes the decimal count to
`/data/dates-wednesdays.txt`.  It is modelled as a function from the input
file's contents to the output file's contents (or the raised exception).
The proleptic-Gregorian calendar arithmetic of `datetime` is embedded
directly: `toOrdinal` is `datetime.date.toordinal` (day 1 = 0001-01-01, a
Monday). -/

def isLeapYear (y : Nat) : Bool :=
  y % 4 == 0 && (y % 100 != 0 || y % 400 == 0)

def daysInMonth (y m : Nat) : Nat :=
  match m with
  | 1 => 31
  | 2 => if isLeapYear y then 29 else 28
  | 3 => 31
  | 4 => 30
  | 5 => 31
  | 6 => 30
  | 7 => 31
  | 8 => 31
  | 9 => 30
  | 10 => 31
  | 11 => 30
  | 12 => 31
  | _ => 0

/-- Days in year `y` before the first day of month `m`. -/
def daysBeforeMonth (y m : Nat) : Nat :=
  let feb := if isLeapYear y then 29 else 28
  match m with
  | 1 => 0
  | 2 => 31
  | 3 => 31 + feb
  | 4 => 62 + feb
  | 5 => 92 + feb
  | 6 => 123 + feb
  | 7 => 153 + feb
  | 8 => 184 + feb
  | 9 => 215 + feb
  | 10 => 245 + feb
  | 11 => 276 + feb
  | 12 => 306 + feb
  | _ => 0

/-- Model of `datetime.date(y, m, d).toordinal()`. -/
def toOrdinal (y m d : Nat) : Nat :=
  365 * (y - 1) + (y - 1) / 4 - (y - 1) / 100 + (y - 1) / 400 + daysBeforeMonth y m + d

/-- Model of `datetime.date(y, m, d).weekday()`: Monday = 0 … Sunday = 6;
Wednesday is 2. -/
def weekday (y m d : Nat) : Nat :=
  (toOrdinal y m d + 6) % 7

/-- Split a character list at every occurrence of `sep` (the single-char
case of Python `str.split(sep)`). -/
def splitSep (sep : Char) : List Char → List (List Char)
  | [] => [[]]
  | c :: t =>
    if c == sep then [] :: splitSep sep t
    else
      match splitSep sep t with
      | [] => [[c]]
      | h :: r => (c :: h) :: r

def allDigits (l : List Char) : Bool :=
  !l.isEmpty && l.all (fun c => c.isDigit)

def digitsVal (l : List Char) : Nat :=
  l.foldl (fun acc c => acc * 10 + (c.toNat - 48)) 0

/-- Model of `datetime.strptime(s, sYmd).date()` for the format string
`%Y-%m-%d`: three dash-separated digit groups (at most 4-2-2 digits), with
the month, day and year ranges `datetime` validates; anything else raises
`ValueError`. -/
def parseDate (s : String) : Except String (Nat × Nat × Nat) :=
  match splitSep '-' s.data with
  | [ys, ms, ds] =>
    if allDigits ys && decide (ys.length ≤ 4) && allDigits ms && decide (ms.length ≤ 2)
        && allDigits ds && decide (ds.length ≤ 2) then
      let y := digitsVal ys
      let m := digitsVal ms
      let d := digitsVal ds
      if decide (1 ≤ y) && decide (1 ≤ m) && decide (m ≤ 12) && decide (1 ≤ d)
          && decide (d ≤ daysInMonth y m) then
        .ok (y, m, d)
      else .error ("time data " ++ s ++ " does not match the expected date format")
    else .error ("time data " ++ s ++ " does not match the expected date format")
  | _ => .error ("time data " ++ s ++ " does not match the expected date format")

/-- Model of `f.readlines()` on a text file's contents, with the line
terminators already dropped (the handler strips every line anyway). -/
def pyReadLines (content : String) : List String :=
  if content.data.isEmpty then []
  else
    let parts := (splitSep '\n' content.data).map String.mk
    if content.data.getLast? == some '\n' then parts.dropLast else parts

/-- Model of `sum(1 for date in dates if strptime(date.strip(), sYmd).weekday() == 2)`:
the first unparsable line raises. -/
def countWednesdays : List String → Except String Nat
  | [] => .ok 0
  | line :: rest =>
    match parseDate (pyStrip line) with
    | .error e => .error e
    | .ok d =>
      match countWednesdays rest with
      | .error e => .error e
      | .ok n => .ok (if weekday d.1 d.2.1 d.2.2 == 2 then n + 1 else n)

/-- Embedding of `_handle_weekday_counting` as a function from the dates
file's contents to the contents written to the output file; a failure is
wrapped as `Failed to count weekdays`. -/
def handle_weekday_counting (content : String) : Except String String :=
  match countWednesdays (pyReadLines content) with
  | .error e => .error ("Failed to count weekdays: " ++ e)
  | .ok count => .ok (Nat.repr count)

/-- Spec-side predicate: the line holds an ISO date falling on a Wednesday. -/
def lineIsWednesday (line : String) : Bool :=
  match parseDate (pyStrip line) with
  | .ok d => weekday d.1 d.2.1 d.2.2 == 2
  | .error _ => false

/-! ## Contact-sort handler (`_handle_contact_sorting`, task A4)

A contact record is a JSON object with string fields `first_name` and
`last_name` plus arbitrary further fields (`extra`).  The handler is
`sorted(contacts, key=lambda x: (x['last_name'], x['first_name']))`:
a stable sort by the code-point-lexicographic order on the key pair.  Any
stable sort computes the same list as Python's Timsort, so the handler is
embedded with `List.mergeSort` (stable) and the comparison Python uses on
the key tuples. -/

structure Contact where
  first_name : String
  last_name : String
  extra : List (String × JValue)

/-- The sort key `(x['last_name'], x['first_name'])`. -/
def contactKey (c : Contact) : String × String :=
  (c.last_name, c.first_name)

/-- Three-way comparison of characters by code point (Python `str`
comparison is by code points). -/
def chCmp (a b : Char) : Ordering :=
  compare a.toNat b.toNat

/-- Python's lexicographic three-way comparison of strings as character
lists. -/
def listCmp : List Char → List Char → Ordering
  | [], [] => .eq
  | [], _ :: _ => .lt
  | _ :: _, [] => .gt
  | a :: as, b :: bs => Ordering.then (chCmp a b) (listCmp as bs)

/-- Python's comparison of the key tuples `(last_name, first_name)`. -/
def keyCmp (x y : String × String) : Ordering :=
  Ordering.then (listCmp x.1.data y.1.data) (listCmp x.2.data y.2.data)

/-- The ordering `sorted` uses: contact `a` may precede contact `b` iff the
key of `a` does not exceed the key of `b`. -/
def contactLe (a b : Contact) : Bool :=
  match keyCmp (contactKey a) (contactKey b) with
  | .gt => false
  | _ => true

/-- Embedding of `_handle_contact_sorting` as a function from the parsed
contacts list to the sorted list written out. -/
def handle_contact_sorting (contacts : List Contact) : List Contact :=
  contacts.mergeSort contactLe

/-! ## Helper lemmas about the Validator -/

/-- If the task is empty, strips to nothing, strips to fewer than 5
characters, or its lowercase contains a deny-list token, the Validator
returns `false`. -/
theorem valid_false_of_reject (t : String)
    (h : t = "" ∨ pyStrip t = "" ∨ (pyStrip t).length < 5 ∨
      ∃ op ∈ dangerous_ops, strContains (pyLower t) op = true) :
    is_valid_task t = false := by
  rcases h with rfl | hs | hl | ⟨op, hmem, hc⟩
  · decide
  · have hl : (pyStrip t).length < 5 := by rw [hs]; decide
    unfold is_valid_task
    have hcond : (t.data.isEmpty || decide ((pyStrip t).length < 5)) = true := by
      rw [decide_eq_true hl]; simp
    rw [if_pos hcond]
  · unfold is_valid_task
    have hcond : (t.data.isEmpty || decide ((pyStrip t).length < 5)) = true := by
      rw [decide_eq_true hl]; simp
    rw [if_pos hcond]
  · unfold is_valid_task
    by_cases hcond : (t.data.isEmpty || decide ((pyStrip t).length < 5)) = true
    · rw [if_pos hcond]
    · rw [if_neg hcond]
      simp only [Bool.not_eq_false', List.any_eq_true]
      exact ⟨op, hmem, hc⟩

/-- If the Validator returns `false`, one of the rejection conditions holds. -/
theorem reject_of_valid_false (t : String) (h : is_valid_task t = false) :
    t = "" ∨ pyStrip t = "" ∨ (pyStrip t).length < 5 ∨
      ∃ op ∈ dangerous_ops, strContains (pyLower t) op = true := by
  unfold is_valid_task at h
  by_cases hcond : (t.data.isEmpty || decide ((pyStrip t).length < 5)) = true
  · by_cases he : t.data.isEmpty = true
    · left
      cases t with
      | mk data => cases data with
        | nil => rfl
        | cons c cs => simp at he
    · rw [Bool.not_eq_true] at he
      rw [he, Bool.false_or] at hcond
      right; right; left
      exact of_decide_eq_true hcond
  · rw [if_neg hcond] at h
    right; right; right
    rw [Bool.not_eq_false'] at h
    exact List.any_eq_true.mp h

/-! ## Claim theorems: the Validator and the Path Guard -/

/-- C6: for every task string `t`, `is_valid_task t` returns `false` exactly
when `t` is empty (or all-whitespace, which strips to the empty string), or
the trimmed length of `t` is below 5 characters, or the lowercase of `t`
contains one of the deny-list substrings; for all other `t` it returns
`true`. -/
theorem validator_false_iff (t : String) :
    is_valid_task t = false ↔
      (t = "" ∨ pyStrip t = "" ∨ (pyStrip t).length < 5 ∨
        ∃ op ∈ dangerous_ops, strContains (pyLower t) op = true) :=
  ⟨reject_of_valid_false t, valid_false_of_reject t⟩

/-- C1: `validate_path p` returns `true` exactly when resolving `p` and the
root `/data` both succeed, the resolved path's string starts with the
resolved root's string, and the resolved path is an existing regular file
(`is_file` returns `true`); in every other case — including any exception
raised during resolution or checking — it returns `false` (the function is
total, so no exception propagates). -/
theorem validate_path_iff (fs : FileSystem) (p : String) :
    validate_path fs p = true ↔
      ∃ fp root, fs.resolve p = .ok fp ∧ fs.resolve "/data" = .ok root ∧
        pyStartsWith fp root = true ∧ fs.is_file fp = .ok true := by
  unfold validate_path
  cases hp : fs.resolve p with
  | error e => simp
  | ok fp =>
    cases hr : fs.resolve "/data" with
    | error e => simp
    | ok root =>
      by_cases hsw : pyStartsWith fp root = true
      · cases hf : fs.is_file fp with
        | error e => simp [hsw, hf]
        | ok b => cases b <;> simp [hsw, hf]
      · rw [Bool.not_eq_true] at hsw
        simp [hsw]

/-- C2: the Path Guard's string-prefix containment admits a false accept: in
a filesystem state where `/data2/x.txt` is an existing regular file under
the sibling directory `/data2`, `validate_path` returns `true` although the
path is not a descendant of the allowed root `/data`. -/
theorem sibling_false_accept :
    validate_path fsSibling "/data2/x.txt" = true ∧
      fsSibling.is_file "/data2/x.txt" = .ok true ∧
      isDescendantOf "/data2/x.txt" "/data" = false :=
  ⟨rfl, rfl, rfl⟩

/-- C3: for `GET /read?path=p`, a Path Guard rejection yields status 400;
acceptance with the file absent at the endpoint's existence check yields
status 404; acceptance with the file present yields 200 carrying the file's
contents. -/
theorem read_endpoint_statuses (fs : FileSystem) (p : String) :
    (validate_path fs p = false →
      read_file fs p = (400, "Invalid path: Must be within /data directory")) ∧
    (validate_path fs p = true → fs.path_exists p = .ok false →
      read_file fs p = (404, "File not found: " ++ p)) ∧
    (∀ c, validate_path fs p = true → fs.path_exists p = .ok true →
      fs.read_text p = .ok c → read_file fs p = (200, c)) := by
  refine ⟨fun hv => ?_, fun hv he => ?_, fun c hv he hr => ?_⟩
  · unfold read_file
    rw [hv]
    rfl
  · unfold read_file
    rw [hv, he]
    rfl
  · unfold read_file
    rw [hv, he, hr]
    rfl

/-- Concrete run of C3's three branches: `/etc/passwd` is rejected with 400,
`/data/ghost.txt` passes the guard but is absent so yields 404, and
`/data/x.txt` yields 200 with its contents. -/
theorem read_endpoint_statuses_witness :
    read_file fsData "/etc/passwd" = (400, "Invalid path: Must be within /data directory") ∧
      read_file fsData "/data/ghost.txt" = (404, "File not found: /data/ghost.txt") ∧
      read_file fsData "/data/x.txt" = (200, "hello") :=
  ⟨(read_endpoint_statuses fsData "/etc/passwd").1 (by decide),
   (read_endpoint_statuses fsData "/data/ghost.txt").2.1 (by decide) rfl,
   (read_endpoint_statuses fsData "/data/x.txt").2.2 "hello" (by decide) rfl rfl⟩

/-! ## Helper lemmas about `Except` and `pyGetItem` -/

theorem okBind {α β ε : Type} (a : α) (f : α → Except ε β) :
    (Except.ok a : Except ε α).bind f = f a := rfl

theorem errBind {α β ε : Type} (e : ε) (f : α → Except ε β) :
    (Except.error e : Except ε α).bind f = .error e := rfl

theorem okMap {α β ε : Type} (a : α) (f : α → β) :
    (Except.ok a : Except ε α).map f = .ok (f a) := rfl

theorem errMap {α β ε : Type} (e : ε) (f : α → β) :
    (Except.error e : Except ε α).map f = .error e := rfl

/-- Subscription succeeds exactly when the value is an object holding the
key. -/
theorem pyGetItem_ok_iff (v : JValue) (key : String) (x : JValue) :
    pyGetItem v key = .ok x ↔ getField v key = some x := by
  cases v with
  | null => simp [pyGetItem, getField]
  | bool b => simp [pyGetItem, getField]
  | num n => simp [pyGetItem, getField]
  | str s => simp [pyGetItem, getField]
  | arr xs => simp [pyGetItem, getField]
  | obj fields =>
    simp only [pyGetItem, getField]
    cases lookupField fields key <;> simp

/-- Subscription raises when the value is not an object holding the key. -/
theorem pyGetItem_error_of_none (v : JValue) (key : String)
    (h : getField v key = none) : ∃ e, pyGetItem v key = .error e := by
  cases v with
  | null => exact ⟨_, rfl⟩
  | bool b => exact ⟨_, rfl⟩
  | num n => exact ⟨_, rfl⟩
  | str s => exact ⟨_, rfl⟩
  | arr xs => exact ⟨_, rfl⟩
  | obj fields =>
    simp only [getField] at h
    exact ⟨⟨none, "KeyError: " ++ key⟩, by simp only [pyGetItem, h]⟩

/-! ## Claim theorems: the `/run` pipeline -/

/-- C5: when the task text is empty, all-whitespace, strips to fewer than 5
characters, or contains a deny-list token case-insensitively, the Validator
rejects, `/run` responds 400, and the response is the same under every
environment — so the Classifier and the LLM Gateway are never consulted. -/
theorem validator_gates_pipeline (env : RunEnv) (task : String)
    (h : task = "" ∨ pyStrip task = "" ∨ (pyStrip task).length < 5 ∨
      ∃ op ∈ dangerous_ops, strContains (pyLower task) op = true) :
    is_valid_task task = false ∧
      run_task env task = (400, .str "Invalid task description") ∧
      ∀ env2 : RunEnv, run_task env task = run_task env2 task := by
  have hv := valid_false_of_reject task h
  have hrun : ∀ e : RunEnv, run_task e task = (400, .str "Invalid task description") := by
    intro e
    unfold run_task
    rw [hv]
    simp
  exact ⟨hv, hrun env, fun env2 => (hrun env).trans (hrun env2).symm⟩

/-- Concrete run of C5: the task text `"rm -rf /tmp"` carries the deny
token `"rm "`, is rejected with 400, and the response does not depend on
the environment. -/
theorem validator_gates_pipeline_witness :
    is_valid_task "rm -rf /tmp" = false ∧
      run_task envSortContacts "rm -rf /tmp" = (400, .str "Invalid task description") ∧
      ∀ env2 : RunEnv, run_task envSortContacts "rm -rf /tmp" = run_task env2 "rm -rf /tmp" :=
  validator_gates_pipeline envSortContacts "rm -rf /tmp"
    (Or.inr (Or.inr (Or.inr ⟨"rm ", by decide, by decide⟩)))

/-- C7: when the Gateway returns text `r` for the classification prompt,
the classification phase fails if `r` does not parse as JSON (the parse
exception propagates), fails if the parsed value lacks `task_type` or
`parameters`, and otherwise returns the extracted
`(task_type, parameters)` pair. -/
theorem classify_contract (env : RunEnv) (task : String) (r : String)
    (hr : env.get_completion (classify_prompt task) = .ok r) :
    (∀ e, env.parseJson r = .error e → classification_step env task = .error e) ∧
      (∀ v, env.parseJson r = .ok v →
        getField v "task_type" = none ∨ getField v "parameters" = none →
        ∃ e, classification_step env task = .error e) ∧
      (∀ t p v, env.parseJson r = .ok v →
        getField v "task_type" = some t → getField v "parameters" = some p →
        classification_step env task = .ok (t, p)) := by
  refine ⟨fun e hp => ?_, fun v hp hmiss => ?_, fun t p v hp ht hpar => ?_⟩
  · unfold classification_step classify_task
    rw [hr, okBind, hp, errBind]
  · unfold classification_step classify_task
    rw [hr, okBind, hp, okBind]
    cases hT : pyGetItem v "task_type" with
    | error e1 => exact ⟨e1, by rw [errBind]⟩
    | ok t =>
      have htt : getField v "task_type" = some t := (pyGetItem_ok_iff v "task_type" t).mp hT
      have hpn : getField v "parameters" = none := by
        rcases hmiss with hm | hm
        · rw [htt] at hm; exact absurd hm (by simp)
        · exact hm
      obtain ⟨e2, he2⟩ := pyGetItem_error_of_none v "parameters" hpn
      exact ⟨e2, by rw [okBind, he2, errMap]⟩
  · unfold classification_step classify_task
    rw [hr, okBind, hp, okBind,
      (pyGetItem_ok_iff v "task_type" t).mpr ht, okBind,
      (pyGetItem_ok_iff v "parameters" p).mpr hpar, okMap]

/-- Concrete run of C7's success branch: a Gateway response parsing to a
well-formed classification yields the extracted pair. -/
theorem classify_contract_witness :
    classification_step envSortContacts "sort the contacts file by name" =
      .ok (.str "sort_contacts", .obj []) :=
  (classify_contract envSortContacts "sort the contacts file by name"
      "llm response text" rfl).2.2
    (.str "sort_contacts") (.obj [])
    (.obj [("task_type", .str "sort_contacts"), ("parameters", .obj [])])
    rfl rfl rfl

/-- C4 (code bug): a classification whose `task_type` is outside the
registry key set does fail before any handler runs, but not with
`ValueError: Unknown task type` mapped to 400 as the spec describes:
evaluating the `handlers` dict raises `AttributeError` first, because seven
registry entries name methods the class never defines, and `/run` maps that
message to 500.  (Even the unreachable `Unknown task type` message contains
neither `"Invalid"` nor `"Failed to parse"`, so it would also map to 500.) -/
theorem registry_gap_attribute_error :
    (registry.map Prod.fst).contains "make_coffee" = false ∧
      handle_task envUnknownType "please organize my files" =
        .error ⟨none, "AttributeError: TaskHandler object has no attribute _handle_api_fetch"⟩ ∧
      run_task envUnknownType "please organize my files" =
        (500, .str
          "Internal server error: AttributeError: TaskHandler object has no attribute _handle_api_fetch") ∧
      strContains "Unknown task type: make_coffee" "Invalid" = false ∧
      strContains "Unknown task type: make_coffee" "Failed to parse" = false :=
  ⟨by decide, rfl, rfl, by decide, by decide⟩

/-- C10: once validation passes and `handle_task` raises a non-HTTP
exception, the `/run` status is 400 exactly when the exception's message
contains `"Invalid"` or `"Failed to parse"`, and 500 exactly otherwise —
the client/server split is decided by message text alone. -/
theorem run_error_status_by_message (env : RunEnv) (task : String) (e : PyExc)
    (hne : task.data.isEmpty = false) (hval : is_valid_task task = true)
    (herr : handle_task env task = .error e) (hhttp : e.http = none) :
    ((run_task env task).1 = 400 ↔
      (strContains e.msg "Invalid" = true ∨ strContains e.msg "Failed to parse" = true)) ∧
      ((run_task env task).1 = 500 ↔
        ¬(strContains e.msg "Invalid" = true ∨ strContains e.msg "Failed to parse" = true)) := by
  have hrt : run_task env task =
      if strContains e.msg "Invalid" || strContains e.msg "Failed to parse" then
        (400, .str e.msg)
      else
        (500, .str ("Internal server error: " ++ e.msg)) := by
    unfold run_task
    rw [hne, hval]
    simp only [Bool.not_true, Bool.or_false, Bool.false_or]
    rw [herr]
    simp only [hhttp]
    rfl
  rw [hrt]
  by_cases hc : (strContains e.msg "Invalid" || strContains e.msg "Failed to parse") = true
  · rw [if_pos hc]
    rw [Bool.or_eq_true] at hc
    refine ⟨⟨fun _ => hc, fun _ => rfl⟩, ⟨fun h4 => ?_, fun hn => absurd hc hn⟩⟩
    simp at h4
  · rw [if_neg hc]
    rw [Bool.or_eq_true] at hc
    refine ⟨⟨fun h5 => ?_, fun hor => absurd hor hc⟩, ⟨fun _ => hc, fun _ => rfl⟩⟩
    simp at h5

/-- Concrete run of C10: a Gateway failure whose message contains
`"Invalid"` is mapped to status 400 by `/run`. -/
theorem run_error_status_by_message_witness :
    (run_task envGatewayInvalid "compute the totals").1 = 400 :=
  ((run_error_status_by_message envGatewayInvalid "compute the totals"
      ⟨none, "LLM request failed: Invalid bearer token"⟩
      rfl (by decide) rfl rfl).1).mpr (Or.inl (by decide))

/-! ## Claim theorems: the weekday-count handler -/

/-- When every line parses as a date, the counting loop returns the number
of lines whose date is a Wednesday. -/
theorem countWednesdays_eq (ls : List String)
    (h : ∀ line ∈ ls, (parseDate (pyStrip line)).isOk = true) :
    countWednesdays ls = .ok (ls.countP lineIsWednesday) := by
  induction ls with
  | nil => rfl
  | cons line rest ih =>
    have hline := h line (by simp)
    have hrest := ih (fun l hl => h l (by simp [hl]))
    cases hd : parseDate (pyStrip line) with
    | error e => rw [hd] at hline; simp [Except.isOk, Except.toBool] at hline
    | ok d =>
      unfold countWednesdays
      rw [hd, hrest, List.countP_cons]
      simp only [lineIsWednesday, hd]
      by_cases hw : (weekday d.1 d.2.1 d.2.2 == 2) = true
      · rw [if_pos hw, if_pos hw]
      · rw [if_neg hw, if_neg hw]
        rfl

/-- C8: for an input file of ISO dates one per line, the weekday-count
handler writes the decimal count of the lines whose date falls on a
Wednesday. -/
theorem weekday_handler_counts (content : String)
    (h : ∀ line ∈ pyReadLines content, (parseDate (pyStrip line)).isOk = true) :
    handle_weekday_counting content =
      .ok (Nat.repr ((pyReadLines content).countP lineIsWednesday)) := by
  unfold handle_weekday_counting
  rw [countWednesdays_eq (pyReadLines content) h]

/-- Concrete run of C8 on the spec's example: dates 2024-01-01,
2024-01-03 and 2024-01-10, of which the last two are Wednesdays, produce
the output string `"2"`. -/
theorem weekday_handler_counts_witness :
    handle_weekday_counting "2024-01-01\n2024-01-03\n2024-01-10" = .ok "2" :=
  weekday_handler_counts "2024-01-01\n2024-01-03\n2024-01-10" (by decide)

/-! ## Ordering lemmas for the contact sort -/

theorem thenSwap (o r : Ordering) : (Ordering.then o r).swap = Ordering.then o.swap r.swap := by
  cases o <;> rfl

theorem then_eq_eq (o r : Ordering) : Ordering.then o r = .eq ↔ o = .eq ∧ r = .eq := by
  cases o <;> simp [Ordering.then]

theorem then_eq_lt (o r : Ordering) :
    Ordering.then o r = .lt ↔ o = .lt ∨ (o = .eq ∧ r = .lt) := by
  cases o <;> simp [Ordering.then]

theorem cmp_ne_gt_iff (o : Ordering) : o ≠ .gt ↔ (o = .lt ∨ o = .eq) := by
  cases o <;> simp

theorem chCmp_eq_iff (a b : Char) : chCmp a b = .eq ↔ a = b := by
  unfold chCmp
  rw [Nat.compare_eq_eq]
  exact ⟨fun h => Char.ext (UInt32.ext h), fun h => by rw [h]⟩

theorem chCmp_swap (a b : Char) : chCmp a b = (chCmp b a).swap := by
  unfold chCmp
  rcases Nat.lt_trichotomy a.toNat b.toNat with h | h | h
  · rw [Nat.compare_eq_lt.mpr h, Nat.compare_eq_gt.mpr h]
    rfl
  · rw [h, Nat.compare_eq_eq.mpr rfl]
    rfl
  · rw [Nat.compare_eq_gt.mpr h, Nat.compare_eq_lt.mpr h]
    rfl

theorem listCmp_eq_iff (a b : List Char) : listCmp a b = .eq ↔ a = b := by
  induction a generalizing b with
  | nil => cases b <;> simp [listCmp]
  | cons x xs ih =>
    cases b with
    | nil => simp [listCmp]
    | cons y ys => simp [listCmp, then_eq_eq, chCmp_eq_iff, ih]

theorem listCmp_swap (a b : List Char) : listCmp a b = (listCmp b a).swap := by
  induction a generalizing b with
  | nil => cases b <;> rfl
  | cons x xs ih =>
    cases b with
    | nil => rfl
    | cons y ys =>
      show Ordering.then (chCmp x y) (listCmp xs ys) =
        (Ordering.then (chCmp y x) (listCmp ys xs)).swap
      rw [thenSwap, ← chCmp_swap x y, ← ih ys]

theorem listCmp_lt_trans {a b c : List Char}
    (h1 : listCmp a b = .lt) (h2 : listCmp b c = .lt) : listCmp a c = .lt := by
  induction a generalizing b c with
  | nil =>
    cases b with
    | nil => exact absurd h1 (by simp [listCmp])
    | cons y ys =>
      cases c with
      | nil => exact absurd h2 (by simp [listCmp])
      | cons z zs => simp [listCmp]
  | cons x xs ih =>
    cases b with
    | nil => exact absurd h1 (by simp [listCmp])
    | cons y ys =>
      cases c with
      | nil => exact absurd h2 (by simp [listCmp])
      | cons z zs =>
        simp only [listCmp] at h1 h2 ⊢
        rw [then_eq_lt] at h1 h2 ⊢
        rcases h1 with h1 | ⟨h1e, h1r⟩ <;> rcases h2 with h2 | ⟨h2e, h2r⟩
        · left
          unfold chCmp at h1 h2 ⊢
          exact Nat.compare_eq_lt.mpr
            (Nat.lt_trans (Nat.compare_eq_lt.mp h1) (Nat.compare_eq_lt.mp h2))
        · left
          have hyz := (chCmp_eq_iff y z).mp h2e
          rw [← hyz]
          exact h1
        · left
          have hxy := (chCmp_eq_iff x y).mp h1e
          rw [hxy]
          exact h2
        · right
          have hxy := (chCmp_eq_iff x y).mp h1e
          have hyz := (chCmp_eq_iff y z).mp h2e
          exact ⟨(chCmp_eq_iff x z).mpr (hxy.trans hyz), ih h1r h2r⟩

theorem keyCmp_eq_iff (x y : String × String) : keyCmp x y = .eq ↔ x = y := by
  unfold keyCmp
  rw [then_eq_eq, listCmp_eq_iff, listCmp_eq_iff]
  constructor
  · rintro ⟨h1, h2⟩
    exact Prod.ext (String.ext h1) (String.ext h2)
  · rintro rfl
    exact ⟨rfl, rfl⟩

theorem keyCmp_swap (x y : String × String) : keyCmp x y = (keyCmp y x).swap := by
  unfold keyCmp
  rw [thenSwap, ← listCmp_swap, ← listCmp_swap]

theorem keyCmp_lt_trans {x y z : String × String}
    (h1 : keyCmp x y = .lt) (h2 : keyCmp y z = .lt) : keyCmp x z = .lt := by
  unfold keyCmp at h1 h2 ⊢
  rw [then_eq_lt] at h1 h2 ⊢
  rcases h1 with h1 | ⟨h1e, h1r⟩ <;> rcases h2 with h2 | ⟨h2e, h2r⟩
  · exact Or.inl (listCmp_lt_trans h1 h2)
  · left
    have := (listCmp_eq_iff _ _).mp h2e
    rw [← this]
    exact h1
  · left
    have := (listCmp_eq_iff _ _).mp h1e
    rw [this]
    exact h2
  · right
    refine ⟨(listCmp_eq_iff _ _).mpr (((listCmp_eq_iff _ _).mp h1e).trans
      ((listCmp_eq_iff _ _).mp h2e)), listCmp_lt_trans h1r h2r⟩

theorem contactLe_iff (a b : Contact) :
    contactLe a b = true ↔ keyCmp (contactKey a) (contactKey b) ≠ .gt := by
  unfold contactLe
  cases h : keyCmp (contactKey a) (contactKey b) <;> simp

theorem contactLe_trans (a b c : Contact)
    (h1 : contactLe a b = true) (h2 : contactLe b c = true) : contactLe a c = true := by
  rw [contactLe_iff] at h1 h2 ⊢
  rw [cmp_ne_gt_iff] at h1 h2 ⊢
  rcases h1 with h1 | h1 <;> rcases h2 with h2 | h2
  · exact Or.inl (keyCmp_lt_trans h1 h2)
  · have := (keyCmp_eq_iff _ _).mp h2
    rw [← this]
    exact Or.inl h1
  · have := (keyCmp_eq_iff _ _).mp h1
    rw [this]
    exact Or.inl h2
  · have e1 := (keyCmp_eq_iff _ _).mp h1
    have e2 := (keyCmp_eq_iff _ _).mp h2
    exact Or.inr ((keyCmp_eq_iff _ _).mpr (e1.trans e2))

theorem contactLe_total (a b : Contact) : (contactLe a b || contactLe b a) = true := by
  rw [Bool.or_eq_true, contactLe_iff, contactLe_iff]
  cases h : keyCmp (contactKey a) (contactKey b) with
  | lt => left; simp [h]
  | eq => left; simp [h]
  | gt =>
    right
    rw [keyCmp_swap (contactKey b) (contactKey a), h]
    decide

theorem contactLe_of_key_eq {a b : Contact} (h : contactKey a = contactKey b) :
    contactLe a b = true := by
  rw [contactLe_iff, h]
  have he : keyCmp (contactKey b) (contactKey b) = .eq := (keyCmp_eq_iff _ _).mpr rfl
  simp [he]

/-! ## Claim theorem: the contact-sort handler -/

/-- C9: the contact-sort handler returns a permutation of its input list,
ordered ascending by the key `(last_name, first_name)`; equal keys keep
their input order (the filter at every key value is unchanged, i.e. the
sort is stable); and sorting is idempotent. -/
theorem contact_sort_spec (l : List Contact) :
    (handle_contact_sorting l).Perm l ∧
      List.Pairwise (fun a b => contactLe a b = true) (handle_contact_sorting l) ∧
      (∀ k : String × String,
        (handle_contact_sorting l).filter (fun c => contactKey c == k) =
          l.filter (fun c => contactKey c == k)) ∧
      handle_contact_sorting (handle_contact_sorting l) = handle_contact_sorting l := by
  refine ⟨List.mergeSort_perm l contactLe,
    List.sorted_mergeSort contactLe_trans contactLe_total l, fun k => ?_, ?_⟩
  · have hsub : (l.filter (fun c => contactKey c == k)).Sublist (l.mergeSort contactLe) := by
      refine List.sublist_mergeSort contactLe_trans contactLe_total ?_ (List.filter_sublist l)
      refine List.pairwise_of_forall_mem_list fun a ha b hb => ?_
      have hak : contactKey a = k := by simpa using (List.mem_filter.mp ha).2
      have hbk : contactKey b = k := by simpa using (List.mem_filter.mp hb).2
      exact contactLe_of_key_eq (hak.trans hbk.symm)
    have hff : (l.filter (fun c => contactKey c == k)).filter (fun c => contactKey c == k) =
        l.filter (fun c => contactKey c == k) :=
      List.filter_eq_self.mpr fun a ha => (List.mem_filter.mp ha).2
    have h1 : (l.filter (fun c => contactKey c == k)).Sublist
        ((l.mergeSort contactLe).filter (fun c => contactKey c == k)) := by
      have := List.Sublist.filter (fun c => contactKey c == k) hsub
      rwa [hff] at this
    have hperm : ((l.mergeSort contactLe).filter (fun c => contactKey c == k)).Perm
        (l.filter fun c => contactKey c == k) :=
      (List.mergeSort_perm l contactLe).filter _
    exact (h1.eq_of_length hperm.length_eq.symm).symm
  · exact List.mergeSort_of_sorted (List.sorted_mergeSort contactLe_trans contactLe_total l)

end Agent
